import Mathlib

/-
Verification of the mayara-server-signalk-plugin core against its
natural-language specification.  The definitions below are a shallow
embedding of the JavaScript source files:
  - plugin/mayara-client.js   (MayaraClient: HTTP request wrapper, URL builders)
  - plugin/radar-provider.js  (createRadarProvider: the Device Proxy facade)
  - the SpokeForwarder class  (per-radar WebSocket relay)
  - the plugin body with connectAndDiscover / updateRadars /
    pollForRadarChanges (the Fleet Reconciler)
JavaScript values are modelled by the `Js` inductive; promise rejection is
modelled with `Except`; the single-threaded event loop is modelled by
atomic steps on explicit state records.
-/

/-- Model of a JavaScript (JSON-like) runtime value.  `undefined` is kept
separate from `null` because the source distinguishes them (optional
chaining yields `undefined`, the `??` operator collapses both). -/
inductive Js where
  | null
  | undefined
  | bool (b : Bool)
  | num (n : Int)
  | str (s : String)
  | arr (elems : List Js)
  | obj (fields : List (String × Js))

/-- JavaScript truthiness: null, undefined, false, 0 and the empty string
are falsy, everything else (objects, arrays, non-zero numbers, non-empty
strings) is truthy. -/
def jsTruthy : Js → Bool
  | Js.null => false
  | Js.undefined => false
  | Js.bool b => b
  | Js.num n => n != 0
  | Js.str s => !s.isEmpty
  | Js.arr _ => true
  | Js.obj _ => true

/-- Optional chaining `a?.k`: yields `undefined` when the receiver is
null or undefined, the field value (or `undefined` when absent) on an
object, and `undefined` on other primitives (no built-in properties are
accessed by the source code). -/
def jsOptGet : Js → String → Js
  | Js.null, _ => Js.undefined
  | Js.undefined, _ => Js.undefined
  | Js.obj fields, k =>
    match fields.find? (fun p => p.1 == k) with
    | some p => p.2
    | none => Js.undefined
  | _, _ => Js.undefined

/-- Direct property access `a.k`: throws a TypeError (modelled as
`Except.error`) when the receiver is null or undefined; otherwise behaves
like `jsOptGet`. -/
def jsGetE : Js → String → Except String Js
  | Js.null, _ => Except.error "TypeError: cannot read properties of null"
  | Js.undefined, _ => Except.error "TypeError: cannot read properties of undefined"
  | v, k => Except.ok (jsOptGet v k)

/-- JavaScript `a || b`: the left operand when truthy, otherwise the right. -/
def jsOr (a b : Js) : Js :=
  if jsTruthy a then a else b

/-- JavaScript `a ?? b`: the left operand unless it is null or undefined. -/
def jsNullish (a b : Js) : Js :=
  match a with
  | Js.null => b
  | Js.undefined => b
  | v => v

mutual

/-- String coercion used by template literals: `String(v)` for the value
shapes the source can produce.  Array elements are joined with commas,
with null/undefined elements rendered as the empty string. -/
def jsToStr : Js → String
  | Js.null => "null"
  | Js.undefined => "undefined"
  | Js.bool true => "true"
  | Js.bool false => "false"
  | Js.num n => toString n
  | Js.str s => s
  | Js.obj _ => "[object Object]"
  | Js.arr es => jsArrToStr es

/-- Comma-join used by array-to-string coercion. -/
def jsArrToStr : List Js → String
  | [] => ""
  | j :: rest =>
    let s := match j with
      | Js.null => ""
      | Js.undefined => ""
      | other => jsToStr other
    match rest with
    | [] => s
    | _ => s ++ "," ++ jsArrToStr rest
end

/-- Semantics of `Object.keys(v)`: throws a TypeError on null/undefined,
yields the own keys of an object, index strings for arrays and strings,
and the empty list for other primitives. -/
def jsObjectKeys : Js → Except String (List String)
  | Js.obj fields => Except.ok (fields.map Prod.fst)
  | Js.null => Except.error "TypeError: cannot convert null to object"
  | Js.undefined => Except.error "TypeError: cannot convert undefined to object"
  | Js.arr es => Except.ok ((List.range es.length).map toString)
  | Js.str s => Except.ok ((List.range s.length).map toString)
  | Js.num _ => Except.ok []
  | Js.bool _ => Except.ok []

/- ======================================================================
   MayaraClient (plugin/mayara-client.js)
   ====================================================================== -/

/-- Outcome of one HTTP exchange as seen by `MayaraClient.request`: the
transport raises an error event, the request times out, or a response
with a status code and an accumulated body string arrives. -/
inductive HttpOutcome where
  | netError (msg : String)
  | timeout
  | response (status : Nat) (body : String)

/-- Reasons a `MayaraClient.request` promise rejects. -/
inductive ReqError where
  | netError (msg : String)
  | timeout
  | httpStatus (status : Nat) (body : String)
deriving DecidableEq

/-- Message carried by each rejection, mirroring the Error objects the
source constructs (`req.on('error')` forwards the transport error;
timeout rejects with "Request timeout"; non-2xx rejects with
"HTTP status: body"). -/
def ReqError.message : ReqError → String
  | ReqError.netError m => m
  | ReqError.timeout => "Request timeout"
  | ReqError.httpStatus s body => "HTTP " ++ toString s ++ ": " ++ body

/-- Embedding of `MayaraClient.request`.  `parse` stands for the external
`JSON.parse` builtin, returning `none` exactly on bodies it would throw
on.  On a 2xx status the source resolves `data ? JSON.parse(data) : null`
inside a try block whose catch resolves the raw string; any non-2xx
status rejects, as do transport errors and timeouts. -/
def request (parse : String → Option Js) : HttpOutcome → Except ReqError Js
  | HttpOutcome.netError m => Except.error (ReqError.netError m)
  | HttpOutcome.timeout => Except.error ReqError.timeout
  | HttpOutcome.response status body =>
    if 200 ≤ status ∧ status < 300 then
      Except.ok
        (if body.isEmpty then Js.null
         else
           match parse body with
           | some j => j
           | none => Js.str body)
    else Except.error (ReqError.httpStatus status body)

/-- Connection configuration held by a `MayaraClient` instance. -/
structure ClientConfig where
  host : String
  port : Nat
  secure : Bool

/-- Backend oracle: what HTTP outcome the server produces for a given
method, path and optional body.  All `MayaraClient` endpoint methods are
`request` applied to one such exchange. -/
structure Backend where
  respond : String → String → Option Js → HttpOutcome

/-- Embedding of `MayaraClient.getRadars` (`GET /v2/api/radars`). -/
def clientGetRadars (parse : String → Option Js) (b : Backend) : Except ReqError Js :=
  request parse (b.respond "GET" "/v2/api/radars" none)

/-- Embedding of `MayaraClient.getState`. -/
def clientGetState (parse : String → Option Js) (b : Backend) (radarId : String) :
    Except ReqError Js :=
  request parse (b.respond "GET" ("/v2/api/radars/" ++ radarId ++ "/state") none)

/-- Embedding of `MayaraClient.setControl` (PUT with body `{value}`). -/
def clientSetControl (parse : String → Option Js) (b : Backend)
    (radarId controlId : String) (value : Js) : Except ReqError Js :=
  request parse
    (b.respond "PUT" ("/v2/api/radars/" ++ radarId ++ "/controls/" ++ controlId)
      (some (Js.obj [("value", value)])))

/-- Embedding of `MayaraClient.getSpokeStreamUrl`: a pure string builder
choosing the ws/wss scheme from the secure flag. -/
def getSpokeStreamUrl (c : ClientConfig) (radarId : String) : String :=
  (if c.secure then "wss" else "ws") ++ "://" ++ c.host ++ ":" ++ toString c.port
    ++ "/v2/api/radars/" ++ radarId ++ "/spokes"

/- ======================================================================
   Device Proxy facade (plugin/radar-provider.js)
   Each method awaits one or two MayaraClient calls (their results are
   passed in as `Except ReqError Js`, rejection corresponding to
   `Except.error`) and wraps the whole body in try/catch; the catch
   branch is the `Except.error` match arm.  Methods therefore return a
   plain `Js` value: the catch-all means no exception escapes.
   ====================================================================== -/

/-- Embedding of the provider's `getRadars`: `Object.keys` of the client
result on success (a thrown TypeError on a null body is caught by the
same catch), the empty array on any failure. -/
def providerGetRadars (r : Except ReqError Js) : Js :=
  match r with
  | Except.error _ => Js.arr []
  | Except.ok radars =>
    match jsObjectKeys radars with
    | Except.ok keys => Js.arr (keys.map Js.str)
    | Except.error _ => Js.arr []

/-- Record the provider's `getRadarInfo` builds from a truthy state and
the capability manifest (field-by-field translation of the object
literal, `||` defaults included). -/
def buildRadarInfo (radarId : String) (state capabilities : Js) : Js :=
  Js.obj
    [("id", Js.str radarId),
     ("name",
       if jsTruthy (jsOptGet capabilities "model") then
         Js.str (String.trim
           (jsToStr (jsOr (jsOptGet capabilities "make") (Js.str "")) ++ " "
             ++ jsToStr (jsOptGet capabilities "model")))
       else Js.str radarId),
     ("brand", jsOr (jsOptGet capabilities "make") (Js.str "Unknown")),
     ("status", jsOr (jsOptGet state "status") (Js.str "standby")),
     ("spokesPerRevolution",
       jsOr (jsOptGet (jsOptGet capabilities "characteristics") "spokesPerRevolution")
         (Js.num 2048)),
     ("maxSpokeLen",
       jsOr (jsOptGet (jsOptGet capabilities "characteristics") "maxSpokeLength")
         (Js.num 512)),
     ("range", jsOr (jsOptGet (jsOptGet state "controls") "range") (Js.num 1852)),
     ("controls", Js.obj
       [("gain", jsOr (jsOptGet (jsOptGet state "controls") "gain")
           (Js.obj [("auto", Js.bool true), ("value", Js.num 50)])),
        ("sea", jsOr (jsOptGet (jsOptGet state "controls") "sea")
           (Js.obj [("auto", Js.bool true), ("value", Js.num 50)])),
        ("rain", jsOr (jsOptGet (jsOptGet state "controls") "rain")
           (Js.obj [("value", Js.num 0)]))]),
     ("streamUrl", Js.undefined)]

/-- Embedding of the provider's `getRadarInfo`: null if `getState`
rejects or yields a falsy value, null if `getCapabilities` rejects,
otherwise the composed record. -/
def providerGetRadarInfo (radarId : String) (stateR capsR : Except ReqError Js) : Js :=
  match stateR with
  | Except.error _ => Js.null
  | Except.ok state =>
    if !jsTruthy state then Js.null
    else
      match capsR with
      | Except.error _ => Js.null
      | Except.ok capabilities => buildRadarInfo radarId state capabilities

/-- Embedding of the provider's `getCapabilities`: pass-through on
success, null on failure. -/
def providerGetCapabilities (r : Except ReqError Js) : Js :=
  match r with
  | Except.ok v => v
  | Except.error _ => Js.null

/-- Embedding of the provider's `getState`: pass-through on success,
null on failure. -/
def providerGetState (r : Except ReqError Js) : Js :=
  match r with
  | Except.ok v => v
  | Except.error _ => Js.null

/-- Embedding of the provider's `getControl`:
`state?.controls?.[controlId] ?? null` on success, null on failure. -/
def providerGetControl (controlId : String) (stateR : Except ReqError Js) : Js :=
  match stateR with
  | Except.error _ => Js.null
  | Except.ok state => jsNullish (jsOptGet (jsOptGet state "controls") controlId) Js.null

/-- Embedding of the provider's `getTargets`: pass-through on success,
null on failure. -/
def providerGetTargets (r : Except ReqError Js) : Js :=
  match r with
  | Except.ok v => v
  | Except.error _ => Js.null

/-- Shared shape of the boolean mutators (`setPower`, `setRange`,
`setGain`, `setSea`, `setRain`, `setControls`, `cancelTarget`): true when
the client call resolves, false when it rejects. -/
def boolMutatorResult (r : Except ReqError Js) : Js :=
  match r with
  | Except.ok _ => Js.bool true
  | Except.error _ => Js.bool false

/-- Embedding of the provider's `setPower`. -/
def providerSetPower (r : Except ReqError Js) : Js := boolMutatorResult r

/-- Embedding of the provider's `setRange`. -/
def providerSetRange (r : Except ReqError Js) : Js := boolMutatorResult r

/-- Embedding of the provider's `setGain`. -/
def providerSetGain (r : Except ReqError Js) : Js := boolMutatorResult r

/-- Embedding of the provider's `setSea`. -/
def providerSetSea (r : Except ReqError Js) : Js := boolMutatorResult r

/-- Embedding of the provider's `setRain`. -/
def providerSetRain (r : Except ReqError Js) : Js := boolMutatorResult r

/-- Embedding of the provider's `setControls`. -/
def providerSetControls (r : Except ReqError Js) : Js := boolMutatorResult r

/-- Embedding of the provider's `cancelTarget`. -/
def providerCancelTarget (r : Except ReqError Js) : Js := boolMutatorResult r

/-- Embedding of the provider's `setControl`: `{success:true}` on
success, `{success:false, error}` on failure. -/
def providerSetControl (r : Except ReqError Js) : Js :=
  match r with
  | Except.ok _ => Js.obj [("success", Js.bool true)]
  | Except.error e =>
    Js.obj [("success", Js.bool false), ("error", Js.str e.message)]

/-- Embedding of the provider's `acquireTarget`: reads
`result.targetId` on success (a TypeError on a null result is caught by
the same catch), `{success:false, error}` on failure. -/
def providerAcquireTarget (r : Except ReqError Js) : Js :=
  match r with
  | Except.error e =>
    Js.obj [("success", Js.bool false), ("error", Js.str e.message)]
  | Except.ok result =>
    match jsGetE result "targetId" with
    | Except.ok tid => Js.obj [("success", Js.bool true), ("targetId", tid)]
    | Except.error m => Js.obj [("success", Js.bool false), ("error", Js.str m)]

/- ======================================================================
   SpokeForwarder (the Streaming Relay)
   The class instance is a record; WebSocket handles and timer handles
   are numbered from a per-instance counter so they can be compared.
   Socket/timer callbacks become event-handler functions returning the
   updated instance plus a list of externally visible effects.
   ====================================================================== -/

/-- Externally visible effects of a SpokeForwarder operation: a frame
handed to `binaryStreamManager.emitData`, a `new WebSocket(url)`
connection attempt, a `setTimeout` scheduling, a `clearTimeout`, or a
`ws.close()` call.  Debug logging is not modelled. -/
inductive Effect where
  | emitData (streamId : String) (bytes : List Nat)
  | connectAttempt (url : String)
  | scheduleTimer (delayMs : Nat)
  | cancelTimer (handle : Nat)
  | closeSocket (handle : Nat)
deriving DecidableEq

/-- Discriminator for connection attempts. -/
def Effect.isConnectAttempt : Effect → Bool
  | Effect.connectAttempt _ => true
  | _ => false

/-- Discriminator for reconnect scheduling. -/
def Effect.isScheduleTimer : Effect → Bool
  | Effect.scheduleTimer _ => true
  | _ => false

/-- Discriminator for frames handed to the sink. -/
def Effect.isEmitData : Effect → Bool
  | Effect.emitData _ _ => true
  | _ => false

/-- Payload shapes a WebSocket message event can deliver. -/
inductive WsData where
  | arrayBuffer (bytes : List Nat)
  | nodeBuffer (bytes : List Nat)
  | text (s : String)
deriving DecidableEq

/-- True for the two binary shapes the message handler forwards. -/
def WsData.isBinary : WsData → Bool
  | WsData.arrayBuffer _ => true
  | WsData.nodeBuffer _ => true
  | WsData.text _ => false

/-- Raw bytes of a message payload (`Buffer.from` on an ArrayBuffer is
byte-identity). -/
def WsData.payload : WsData → List Nat
  | WsData.arrayBuffer bs => bs
  | WsData.nodeBuffer bs => bs
  | WsData.text _ => []

/-- State of one SpokeForwarder instance, mirroring the constructor's
fields.  `hasBinaryStreamManager` records whether the sink reference is
present; `nextHandle` numbers sockets and timers. -/
structure Forwarder where
  radarId : String
  url : String
  hasBinaryStreamManager : Bool
  reconnectInterval : Nat
  ws : Option Nat
  reconnectTimer : Option Nat
  closed : Bool
  connected : Bool
  streamId : String
  nextHandle : Nat
deriving DecidableEq

/-- Embedding of the SpokeForwarder constructor (`reconnectInterval`
defaults to 5000 at the call sites that omit it). -/
def SpokeForwarder.mkNew (radarId url : String) (hasBSM : Bool)
    (reconnectInterval : Nat) : Forwarder :=
  { radarId := radarId
    url := url
    hasBinaryStreamManager := hasBSM
    reconnectInterval := reconnectInterval
    ws := none
    reconnectTimer := none
    closed := false
    connected := false
    streamId := "radars/" ++ radarId
    nextHandle := 0 }

/-- Embedding of `scheduleReconnect`: a no-op when closed or when a timer
is already pending, otherwise records the single pending timer and
schedules the callback after `reconnectInterval` ms. -/
def SpokeForwarder.scheduleReconnect (f : Forwarder) : Forwarder × List Effect :=
  if f.closed || f.reconnectTimer.isSome then (f, [])
  else
    ({ f with reconnectTimer := some f.nextHandle, nextHandle := f.nextHandle + 1 },
     [Effect.scheduleTimer f.reconnectInterval])

/-- Embedding of `connect`: a no-op when closed; otherwise constructs the
WebSocket (the `ctorOk` flag models whether `new WebSocket(url)` throws
synchronously; the catch branch schedules a reconnect). -/
def SpokeForwarder.connect (ctorOk : Bool) (f : Forwarder) : Forwarder × List Effect :=
  if f.closed then (f, [])
  else if ctorOk then
    ({ f with ws := some f.nextHandle, nextHandle := f.nextHandle + 1 },
     [Effect.connectAttempt f.url])
  else SpokeForwarder.scheduleReconnect f

/-- Embedding of `start`: a no-op when already stopped, otherwise
`connect`. -/
def SpokeForwarder.start (ctorOk : Bool) (f : Forwarder) : Forwarder × List Effect :=
  if f.closed then (f, []) else SpokeForwarder.connect ctorOk f

/-- Embedding of the `message` handler: forwards the frame to
`binaryStreamManager.emitData(streamId, ...)` when the sink reference is
present and the payload is an ArrayBuffer or a Buffer; any other payload
shape, or a missing sink, is ignored.  The handler does not consult
`closed`. -/
def SpokeForwarder.onMessage (f : Forwarder) (data : WsData) : List Effect :=
  match data with
  | WsData.arrayBuffer bs =>
    if f.hasBinaryStreamManager then [Effect.emitData f.streamId bs] else []
  | WsData.nodeBuffer bs =>
    if f.hasBinaryStreamManager then [Effect.emitData f.streamId bs] else []
  | WsData.text _ => []

/-- Embedding of the `open` handler: marks the relay connected. -/
def SpokeForwarder.onOpen (f : Forwarder) : Forwarder × List Effect :=
  ({ f with connected := true }, [])

/-- Embedding of the `close` handler: clears the connected flag, then
schedules a reconnect unless the relay was stopped. -/
def SpokeForwarder.onClose (f : Forwarder) : Forwarder × List Effect :=
  let f1 := { f with connected := false }
  if f1.closed then (f1, []) else SpokeForwarder.scheduleReconnect f1

/-- Embedding of the reconnect `setTimeout` callback: empties the timer
slot, then reconnects unless the relay was stopped. -/
def SpokeForwarder.onReconnectTimer (ctorOk : Bool) (f : Forwarder) :
    Forwarder × List Effect :=
  let f1 := { f with reconnectTimer := none }
  if f1.closed then (f1, []) else SpokeForwarder.connect ctorOk f1

/-- Embedding of `stop`: sets the terminal flag first, cancels a pending
timer if any, closes the socket if any (errors from `ws.close()` are
swallowed by the source, so no error effect exists), and clears the
connected flag. -/
def SpokeForwarder.stop (f : Forwarder) : Forwarder × List Effect :=
  let f1 := { f with closed := true }
  let p2 : Forwarder × List Effect :=
    match f1.reconnectTimer with
    | some h => ({ f1 with reconnectTimer := none }, [Effect.cancelTimer h])
    | none => (f1, [])
  let p3 : Forwarder × List Effect :=
    match p2.1.ws with
    | some h => ({ p2.1 with ws := none }, p2.2 ++ [Effect.closeSocket h])
    | none => p2
  ({ p3.1 with connected := false }, p3.2)

/-- Events the runtime can deliver to one forwarder: a message, the
socket opening, closing or erroring, or the pending reconnect timer
firing. -/
inductive FwdEvent where
  | message (data : WsData)
  | socketOpen
  | socketClose
  | socketError
  | reconnectTimerFire
deriving DecidableEq

/-- Discriminator for message events. -/
def FwdEvent.isMessage : FwdEvent → Bool
  | FwdEvent.message _ => true
  | _ => false

/-- Dispatch of one delivered event to the handler the source registers
for it (the `error` handler only logs). -/
def SpokeForwarder.handleEvent (ctorOk : Bool) (f : Forwarder) :
    FwdEvent → Forwarder × List Effect
  | FwdEvent.message d => (f, SpokeForwarder.onMessage f d)
  | FwdEvent.socketOpen => SpokeForwarder.onOpen f
  | FwdEvent.socketClose => SpokeForwarder.onClose f
  | FwdEvent.socketError => (f, [])
  | FwdEvent.reconnectTimerFire => SpokeForwarder.onReconnectTimer ctorOk f

/-- Delivery of a sequence of events (each with its own outcome for a
possible constructor throw), accumulating all effects. -/
def SpokeForwarder.runEvents (f : Forwarder) :
    List (Bool × FwdEvent) → Forwarder × List Effect
  | [] => (f, [])
  | (c, e) :: rest =>
    let r := SpokeForwarder.handleEvent c f e
    let r2 := SpokeForwarder.runEvents r.1 rest
    (r2.1, r.2 ++ r2.2)

/- ======================================================================
   Fleet Reconciler (plugin body: connectAndDiscover, updateRadars,
   pollForRadarChanges)
   Module-level mutable variables become a state record; setInterval
   handles are numbered from `nextTimer`; each async callback runs as
   one atomic step of the single-threaded event loop.
   ====================================================================== -/

/-- Relay lifecycle calls made during a reconciliation pass, used to
count `start()` and `stop()` invocations per radar id. -/
inductive REvent where
  | startRelay (radarId : String)
  | stopRelay (radarId : String)
deriving DecidableEq

/-- Plugin settings object (absent fields are `none`; the source applies
`|| default` at each use site, where 0 is falsy). -/
structure Settings where
  discoveryPollInterval : Option Nat := none
  reconnectInterval : Option Nat := none

/-- JavaScript `v || d` for the numeric settings fields. -/
def jsOrNat (v : Option Nat) (d : Nat) : Nat :=
  match v with
  | some n => if n == 0 then d else n
  | none => d

/-- Module-level state of the plugin closure: the known-radar set and
forwarder map (insertion-ordered, as JS Set/Map are), the two interval
handles, the connected flag and the last reported status string.
`hasBinaryStreamManager` records whether `app.binaryStreamManager`
exists; `nextTimer` numbers interval handles. -/
structure PluginState where
  knownRadars : List String
  spokeForwarders : List (String × Forwarder)
  discoveryInterval : Option Nat
  reconnectInterval : Option Nat
  isConnected : Bool
  statusMsg : String
  hasBinaryStreamManager : Bool
  nextTimer : Nat

/-- Initial plugin state: both collections empty, no timers, not
connected. -/
def initState (hasBSM : Bool) : PluginState :=
  { knownRadars := []
    spokeForwarders := []
    discoveryInterval := none
    reconnectInterval := none
    isConnected := false
    statusMsg := ""
    hasBinaryStreamManager := hasBSM
    nextTimer := 0 }

/-- JS `new Set(list)`: deduplicate keeping first occurrences in order. -/
def jsSetOfList (l : List String) : List String :=
  l.foldl (fun acc x => if acc.contains x then acc else acc ++ [x]) []

/-- JS `Map.get`. -/
def mapGet (sf : List (String × Forwarder)) (k : String) : Option Forwarder :=
  (sf.find? (fun p => p.1 == k)).map Prod.snd

/-- JS `Map.set`: overwrite in place when the key exists, append
otherwise. -/
def mapSet (sf : List (String × Forwarder)) (k : String) (v : Forwarder) :
    List (String × Forwarder) :=
  if (sf.map Prod.fst).contains k then
    sf.map (fun p => if p.1 == k then (k, v) else p)
  else sf ++ [(k, v)]

/-- First loop of `updateRadars`, iterating over the freshly observed
set: each id not yet known is added to `knownRadars`; when
`app.binaryStreamManager` exists a SpokeForwarder is constructed for the
id's stream URL, stored in the map and started (the object reference in
the map is the started instance; `new WebSocket` is taken not to throw
here, which only affects the inner socket fields).  Without the sink the
id is tracked but no forwarder is created. -/
def addRadars (cfg : ClientConfig) (settings : Settings) (hasSink : Bool) :
    List String → List String → List (String × Forwarder) → List REvent →
    List String × List (String × Forwarder) × List REvent
  | [], kr, sf, evs => (kr, sf, evs)
  | radarId :: rest, kr, sf, evs =>
    if kr.contains radarId then addRadars cfg settings hasSink rest kr sf evs
    else
      let kr' := kr ++ [radarId]
      if hasSink then
        let fwd := SpokeForwarder.mkNew radarId (getSpokeStreamUrl cfg radarId) true
          (jsOrNat settings.reconnectInterval 5 * 1000)
        let started := (SpokeForwarder.start true fwd).1
        addRadars cfg settings hasSink rest kr' (mapSet sf radarId started)
          (evs ++ [REvent.startRelay radarId])
      else addRadars cfg settings hasSink rest kr' sf evs

/-- Second loop of `updateRadars`, iterating over the known set as it
stands after the first loop (deleting the visited element during JS Set
iteration is safe): each id absent from the observed set is removed from
`knownRadars`; its forwarder, if any, is stopped (recorded as a
`stopRelay` event; the stopped object is dropped with its map entry) and
deleted from the map. -/
def removeRadars (current : List String) :
    List String → List String → List (String × Forwarder) → List REvent →
    List String × List (String × Forwarder) × List REvent
  | [], kr, sf, evs => (kr, sf, evs)
  | radarId :: rest, kr, sf, evs =>
    if current.contains radarId then removeRadars current rest kr sf evs
    else
      let kr' := kr.filter (fun x => x != radarId)
      match mapGet sf radarId with
      | some _ =>
        removeRadars current rest kr' (sf.filter (fun p => p.1 != radarId))
          (evs ++ [REvent.stopRelay radarId])
      | none => removeRadars current rest kr' sf evs

/-- Embedding of `updateRadars` on the two collections: build the
observed set, add new radars, remove disappeared ones. -/
def updateRadarsCore (cfg : ClientConfig) (settings : Settings) (hasSink : Bool)
    (radarIds kr : List String) (sf : List (String × Forwarder)) :
    List String × List (String × Forwarder) × List REvent :=
  let current := jsSetOfList radarIds
  let r1 := addRadars cfg settings hasSink current kr sf []
  removeRadars current r1.1 r1.1 r1.2.1 r1.2.2

/-- Embedding of `updateRadars` lifted to the plugin state (it mutates
only `knownRadars` and `spokeForwarders`). -/
def updateRadars (cfg : ClientConfig) (settings : Settings)
    (radarIds : List String) (s : PluginState) : PluginState × List REvent :=
  let r := updateRadarsCore cfg settings s.hasBinaryStreamManager radarIds
    s.knownRadars s.spokeForwarders
  ({ s with knownRadars := r.1, spokeForwarders := r.2.1 }, r.2.2)

/-- Catch branch of `pollForRadarChanges`: mark disconnected, report the
lost connection, cancel the discovery interval and start the reconnect
interval. -/
def pollCatch (msg : String) (s : PluginState) : PluginState :=
  { s with isConnected := false
           statusMsg := "Lost connection: " ++ msg
           discoveryInterval := none
           reconnectInterval := some s.nextTimer
           nextTimer := s.nextTimer + 1 }

/-- Embedding of one `pollForRadarChanges` tick given the outcome of
`client.getRadars()`: on success reconcile and refresh the status (a
TypeError from `Object.keys(null)` lands in the same catch); on
rejection enter the reconnect regime. -/
def pollForRadarChanges (cfg : ClientConfig) (settings : Settings)
    (s : PluginState) (outcome : Except ReqError Js) : PluginState × List REvent :=
  match outcome with
  | Except.ok radars =>
    match jsObjectKeys radars with
    | Except.ok radarIds =>
      let r := updateRadars cfg settings radarIds s
      ({ r.1 with statusMsg :=
          "Connected - " ++ toString radarIds.length ++ " radar(s)" }, r.2)
    | Except.error m => (pollCatch m s, [])
  | Except.error e => (pollCatch e.message s, [])

/-- Embedding of one reconnect-interval tick (the identical callbacks
registered by `connectAndDiscover` and by `pollForRadarChanges`): on
rejection nothing changes; on success set the connected flag, and — if
`Object.keys` does not throw — report status, clear the reconnect
interval, reconcile, and start the discovery interval. -/
def reconnectTick (cfg : ClientConfig) (settings : Settings)
    (s : PluginState) (outcome : Except ReqError Js) : PluginState × List REvent :=
  match outcome with
  | Except.error _ => (s, [])
  | Except.ok radars =>
    let s1 := { s with isConnected := true }
    match jsObjectKeys radars with
    | Except.error _ => (s1, [])
    | Except.ok radarIds =>
      let s2 := { s1 with
        statusMsg := "Connected - " ++ toString radarIds.length ++ " radar(s) found"
        reconnectInterval := none }
      let r := updateRadars cfg settings radarIds s2
      ({ r.1 with discoveryInterval := some r.1.nextTimer,
                  nextTimer := r.1.nextTimer + 1 }, r.2)

/-- Catch branch of `connectAndDiscover`: mark disconnected, report the
error and start the reconnect interval (the discovery interval is not
touched; it is still unset at this call site). -/
def candCatch (msg : String) (s : PluginState) : PluginState :=
  { s with isConnected := false
           statusMsg := "Cannot connect to mayara-server: " ++ msg
           reconnectInterval := some s.nextTimer
           nextTimer := s.nextTimer + 1 }

/-- Embedding of `connectAndDiscover` given the outcome of the initial
`client.getRadars()`: on success set the connected flag, report status,
reconcile and start the discovery interval; on rejection (or a TypeError
from `Object.keys`) fall into the catch branch. -/
def connectAndDiscover (cfg : ClientConfig) (settings : Settings)
    (s : PluginState) (outcome : Except ReqError Js) : PluginState × List REvent :=
  match outcome with
  | Except.error e => (candCatch e.message s, [])
  | Except.ok radars =>
    let s1 := { s with isConnected := true }
    match jsObjectKeys radars with
    | Except.error m => (candCatch m s1, [])
    | Except.ok radarIds =>
      let s2 := { s1 with
        statusMsg := "Connected - " ++ toString radarIds.length ++ " radar(s) found" }
      let r := updateRadars cfg settings radarIds s2
      ({ r.1 with discoveryInterval := some r.1.nextTimer,
                  nextTimer := r.1.nextTimer + 1 }, r.2)

/-- One scheduled callback of the reconciler: a discovery-poll tick or a
reconnect tick, each carrying the backend outcome it observes. -/
inductive PStep where
  | discoveryTick (outcome : Except ReqError Js)
  | reconnectTick (outcome : Except ReqError Js)

/-- Apply one step.  An interval callback only runs while its interval
handle is live (`clearInterval` prevents later fires), hence the
guards. -/
def applyStep (cfg : ClientConfig) (settings : Settings) (s : PluginState) :
    PStep → PluginState
  | PStep.discoveryTick o =>
    if s.discoveryInterval.isSome then (pollForRadarChanges cfg settings s o).1 else s
  | PStep.reconnectTick o =>
    if s.reconnectInterval.isSome then (reconnectTick cfg settings s o).1 else s

/-- Run a sequence of scheduled callbacks. -/
def runSteps (cfg : ClientConfig) (settings : Settings) :
    PluginState → List PStep → PluginState
  | s, [] => s
  | s, st :: rest => runSteps cfg settings (applyStep cfg settings s st) rest

/-- Run a sequence of reconciliation passes (one observed id list per
pass) from a given state. -/
def runPasses (cfg : ClientConfig) (settings : Settings) :
    List (List String) → PluginState → PluginState
  | [], s => s
  | ids :: rest, s => runPasses cfg settings rest (updateRadars cfg settings ids s).1

/-- Default client configuration (the schema defaults of the plugin). -/
def defaultCfg : ClientConfig :=
  { host := "localhost", port := 6502, secure := false }

/-- Settings object with every optional field absent. -/
def defaultSettings : Settings := {}

/- ======================================================================
   Claims
   ====================================================================== -/

/-- Claim C6: calling `stop()` a second time leaves the relay state
(closed flag, connected flag, timer slot, socket handle) exactly as the
first call left it and produces no effect at all: no socket close, no
error, no status callback. -/
theorem spokeForwarder_stop_idempotent (f : Forwarder) :
    SpokeForwarder.stop (SpokeForwarder.stop f).1 = ((SpokeForwarder.stop f).1, []) := by
  cases f with
  | mk radarId url hasBSM ri ws rt cl co sid nh =>
    cases rt <;> cases ws <;> rfl

/-- Witness for C6 at a concrete relay with a live socket and a pending
timer. -/
theorem spokeForwarder_stop_idempotent_witness :
    SpokeForwarder.stop
        (SpokeForwarder.stop
          { (SpokeForwarder.mkNew "r1" "u" true 5000) with
              ws := some 0, reconnectTimer := some 1, nextHandle := 2 }).1
      = ((SpokeForwarder.stop
          { (SpokeForwarder.mkNew "r1" "u" true 5000) with
              ws := some 0, reconnectTimer := some 1, nextHandle := 2 }).1, []) :=
  spokeForwarder_stop_idempotent _

/-- Claim C7: when the discovery poll rejects while connected, the catch
branch changes only the connected flag, the status string and the two
interval handles (discovery cancelled, reconnect started); the known-set
and the forwarder map are untouched and no relay receives `stop()`. -/
theorem poll_failure_frame (cfg : ClientConfig) (settings : Settings)
    (s : PluginState) (e : ReqError) :
    (pollForRadarChanges cfg settings s (Except.error e)).1.knownRadars = s.knownRadars
    ∧ (pollForRadarChanges cfg settings s (Except.error e)).1.spokeForwarders
        = s.spokeForwarders
    ∧ (pollForRadarChanges cfg settings s (Except.error e)).2 = []
    ∧ (pollForRadarChanges cfg settings s (Except.error e)).1.discoveryInterval = none
    ∧ (pollForRadarChanges cfg settings s (Except.error e)).1.reconnectInterval
        = some s.nextTimer
    ∧ (pollForRadarChanges cfg settings s (Except.error e)).1.isConnected = false
    ∧ (pollForRadarChanges cfg settings s (Except.error e)).1.hasBinaryStreamManager
        = s.hasBinaryStreamManager :=
  ⟨rfl, rfl, rfl, rfl, rfl, rfl, rfl⟩

/-- Witness for C7 at a concrete connected state with one known radar. -/
theorem poll_failure_frame_witness :
    (pollForRadarChanges defaultCfg defaultSettings
        { (initState true) with
          knownRadars := ["A"]
          discoveryInterval := some 0
          isConnected := true
          nextTimer := 1 }
        (Except.error ReqError.timeout)).1.knownRadars = ["A"] :=
  (poll_failure_frame defaultCfg defaultSettings
    { (initState true) with
      knownRadars := ["A"]
      discoveryInterval := some 0
      isConnected := true
      nextTimer := 1 } ReqError.timeout).1

/-- Claim C9: the spoke-stream URL builder is a pure total function; at
`secure=false, host="h", port=1, id="x"` it yields the fixed ws URL
containing "h", "1" and "x", and flipping the secure flag changes
exactly the scheme (ws versus wss), leaving the remainder identical. -/
theorem getSpokeStreamUrl_spec :
    (getSpokeStreamUrl { host := "h", port := 1, secure := false } "x"
      = "ws://h:1/v2/api/radars/x/spokes")
    ∧ (∃ pre post, getSpokeStreamUrl { host := "h", port := 1, secure := false } "x"
        = pre ++ "h" ++ post)
    ∧ (∃ pre post, getSpokeStreamUrl { host := "h", port := 1, secure := false } "x"
        = pre ++ "1" ++ post)
    ∧ (∃ pre post, getSpokeStreamUrl { host := "h", port := 1, secure := false } "x"
        = pre ++ "x" ++ post)
    ∧ ∀ (host : String) (port : Nat) (radarId : String), ∃ rest,
        getSpokeStreamUrl { host := host, port := port, secure := false } radarId
          = "ws" ++ rest
        ∧ getSpokeStreamUrl { host := host, port := port, secure := true } radarId
          = "wss" ++ rest := by
  refine ⟨rfl, ⟨"ws://", ":1/v2/api/radars/x/spokes", rfl⟩,
    ⟨"ws://h:", "/v2/api/radars/x/spokes", rfl⟩,
    ⟨"ws://h:1/v2/api/radars/", "/spokes", rfl⟩, ?_⟩
  intro host port radarId
  refine ⟨"://" ++ host ++ ":" ++ toString port ++ "/v2/api/radars/" ++ radarId
    ++ "/spokes", ?_, ?_⟩
  · simp [getSpokeStreamUrl, String.append_assoc]
    exact String.append_assoc "ws" "://" _
  · simp [getSpokeStreamUrl, String.append_assoc]
    exact String.append_assoc "wss" "://" _

/-- Claim C10: the message handler forwards a frame to
`emitData("radars/" ++ id, bytes)` exactly when the sink reference is
present and the payload is binary (ArrayBuffer or Buffer); text frames
or a missing sink produce nothing and raise nothing. -/
theorem onMessage_forwarding_spec (f : Forwarder) (d : WsData)
    (h : f.streamId = "radars/" ++ f.radarId) :
    SpokeForwarder.onMessage f d
      = (if f.hasBinaryStreamManager && d.isBinary then
          [Effect.emitData ("radars/" ++ f.radarId) d.payload] else []) := by
  cases d <;> cases hb : f.hasBinaryStreamManager <;>
    simp [SpokeForwarder.onMessage, WsData.isBinary, WsData.payload, hb, h]

/-- Witness for C10: a binary frame on a sink-equipped relay is emitted
with the radar-derived stream key. -/
theorem onMessage_forwarding_witness :
    SpokeForwarder.onMessage (SpokeForwarder.mkNew "r1" "u" true 5000)
        (WsData.arrayBuffer [7, 9]) = [Effect.emitData "radars/r1" [7, 9]] := by
  have h := onMessage_forwarding_spec (SpokeForwarder.mkNew "r1" "u" true 5000)
    (WsData.arrayBuffer [7, 9]) rfl
  simpa using h

/-- Claim C5 counterexample: on a 2xx status with the malformed body "x"
(not valid JSON, so any faithful `JSON.parse` model returns `none` on
it) the request RESOLVES with the raw body text instead of rejecting —
the catch around `JSON.parse` calls `resolve(data)`.  This contradicts
the claim that a malformed response body is a failure case. -/
theorem request_malformed_2xx_body_resolves :
    request (fun _ => none) (HttpOutcome.response 200 "x") = Except.ok (Js.str "x")
    ∧ (request (fun _ => none) (HttpOutcome.response 200 "x")).isOk = true := by
  exact ⟨rfl, rfl⟩

/-- Claim C5 (amended): a `MayaraClient.request` promise rejects exactly
on a network error, a timeout, or a non-2xx status; on a 2xx status it
always resolves — with the parsed body when `JSON.parse` succeeds, with
`null` on an empty body, and with the raw body text when the body is
malformed. -/
theorem request_failure_characterization :
    ∀ (parse : String → Option Js) (o : HttpOutcome),
    ((request parse o).isOk = true ↔
      ∃ s b, o = HttpOutcome.response s b ∧ 200 ≤ s ∧ s < 300)
    ∧ (∀ s b j, 200 ≤ s → s < 300 → parse b = some j → b.isEmpty = false →
        request parse (HttpOutcome.response s b) = Except.ok j)
    ∧ (∀ s b, 200 ≤ s → s < 300 → b.isEmpty = true →
        request parse (HttpOutcome.response s b) = Except.ok Js.null)
    ∧ (∀ s b, 200 ≤ s → s < 300 → parse b = none → b.isEmpty = false →
        request parse (HttpOutcome.response s b) = Except.ok (Js.str b)) := by
  intro parse o
  refine ⟨?_, ?_, ?_, ?_⟩
  · cases o with
    | netError m => simp [request, Except.isOk, Except.toBool]
    | timeout => simp [request, Except.isOk, Except.toBool]
    | response s b =>
      by_cases h : 200 ≤ s ∧ s < 300
      · simp [request, h, Except.isOk, Except.toBool]
      · simp [request, h, Except.isOk, Except.toBool]
  · intro s b j h1 h2 hp hb
    simp [request, h1, h2, hp, hb]
  · intro s b h1 h2 hb
    simp [request, h1, h2, hb]
  · intro s b h1 h2 hp hb
    simp [request, h1, h2, hp, hb]

/-- Witness for C5 (amended) at concrete outcomes: a well-formed 2xx
body parses, an empty 2xx body yields null, and a 500 rejects. -/
theorem request_failure_characterization_witness :
    request (fun s => if s = "[]" then some (Js.arr []) else none)
        (HttpOutcome.response 200 "[]") = Except.ok (Js.arr [])
    ∧ request (fun s => if s = "[]" then some (Js.arr []) else none)
        (HttpOutcome.response 204 "") = Except.ok Js.null
    ∧ ((request (fun s => if s = "[]" then some (Js.arr []) else none)
        (HttpOutcome.response 500 "boom")).isOk = true → False) :=
  ⟨(request_failure_characterization (fun s => if s = "[]" then some (Js.arr []) else none)
      (HttpOutcome.response 200 "[]")).2.1 200 "[]" (Js.arr [])
      (by decide) (by decide) (by rfl) (by rfl),
   (request_failure_characterization (fun s => if s = "[]" then some (Js.arr []) else none)
      (HttpOutcome.response 204 "")).2.2.1 204 "" (by decide) (by decide) (by rfl),
   fun h => by
    have h2 := (request_failure_characterization
      (fun s => if s = "[]" then some (Js.arr []) else none)
      (HttpOutcome.response 500 "boom")).1.mp h
    obtain ⟨s, b, heq, hs1, hs2⟩ := h2
    cases heq
    omega⟩

/-- Claim C4 counterexample: on a failing client call the provider's
`getRadars` returns the empty ARRAY (the source's catch is `return []`),
not null; and `setPower`, a mutator, returns the plain boolean false,
not a success-shaped object.  Both contradict the claim that getters
return null and mutators return a success-record. -/
theorem provider_getRadars_failure_not_null :
    providerGetRadars (Except.error ReqError.timeout) = Js.arr []
    ∧ Js.arr [] ≠ Js.null
    ∧ providerSetPower (Except.error ReqError.timeout) = Js.bool false := by
  refine ⟨rfl, ?_, rfl⟩
  intro h
  exact Js.noConfusion h

/-- Claim C4 (amended): on any Backend Client failure the getters
`getRadarInfo`, `getCapabilities`, `getState`, `getControl` and
`getTargets` return null while `getRadars` returns the empty array; the
mutators `setControl` and `acquireTarget` return a
`{success:false, error}` record while `setPower`, `setRange`, `setGain`,
`setSea`, `setRain`, `setControls` and `cancelTarget` return the boolean
false.  Every method is a total function of the client outcome — the
catch-all in each method means no failure propagates to the caller. -/
theorem provider_error_normalization :
    ∀ (e : ReqError) (radarId controlId : String) (stR : Except ReqError Js),
    providerGetRadars (Except.error e) = Js.arr []
    ∧ providerGetRadarInfo radarId (Except.error e) stR = Js.null
    ∧ providerGetRadarInfo radarId stR (Except.error e) = Js.null
    ∧ providerGetCapabilities (Except.error e) = Js.null
    ∧ providerGetState (Except.error e) = Js.null
    ∧ providerGetControl controlId (Except.error e) = Js.null
    ∧ providerGetTargets (Except.error e) = Js.null
    ∧ providerSetPower (Except.error e) = Js.bool false
    ∧ providerSetRange (Except.error e) = Js.bool false
    ∧ providerSetGain (Except.error e) = Js.bool false
    ∧ providerSetSea (Except.error e) = Js.bool false
    ∧ providerSetRain (Except.error e) = Js.bool false
    ∧ providerSetControls (Except.error e) = Js.bool false
    ∧ providerCancelTarget (Except.error e) = Js.bool false
    ∧ providerSetControl (Except.error e)
        = Js.obj [("success", Js.bool false), ("error", Js.str e.message)]
    ∧ providerAcquireTarget (Except.error e)
        = Js.obj [("success", Js.bool false), ("error", Js.str e.message)] := by
  intro e radarId controlId stR
  refine ⟨rfl, rfl, ?_, rfl, rfl, rfl, rfl, rfl, rfl, rfl, rfl, rfl, rfl, rfl, rfl, rfl⟩
  cases stR with
  | error e2 => rfl
  | ok st => cases h : jsTruthy st <;> simp [providerGetRadarInfo, h]

/-- Claim C2: starting from known set {A,B} with one relay each (sink
present, as relay existence requires), a pass observing [B,C] leaves
relays for exactly B and C, B keeps its original untouched relay, A's
relay received exactly one `stop()`, C's exactly one `start()`, and B's
relay received neither call during the pass. -/
theorem reconcile_scenario_ab_to_bc (cfg : ClientConfig) (settings : Settings)
    (fA fB : Forwarder) :
    ((updateRadars cfg settings ["B", "C"]
        { knownRadars := ["A", "B"]
          spokeForwarders := [("A", fA), ("B", fB)]
          discoveryInterval := some 0
          reconnectInterval := none
          isConnected := true
          statusMsg := ""
          hasBinaryStreamManager := true
          nextTimer := 1 }).1.spokeForwarders.map Prod.fst = ["B", "C"])
    ∧ mapGet (updateRadars cfg settings ["B", "C"]
        { knownRadars := ["A", "B"]
          spokeForwarders := [("A", fA), ("B", fB)]
          discoveryInterval := some 0
          reconnectInterval := none
          isConnected := true
          statusMsg := ""
          hasBinaryStreamManager := true
          nextTimer := 1 }).1.spokeForwarders "B" = some fB
    ∧ ((updateRadars cfg settings ["B", "C"]
        { knownRadars := ["A", "B"]
          spokeForwarders := [("A", fA), ("B", fB)]
          discoveryInterval := some 0
          reconnectInterval := none
          isConnected := true
          statusMsg := ""
          hasBinaryStreamManager := true
          nextTimer := 1 }).1.knownRadars = ["B", "C"])
    ∧ ((updateRadars cfg settings ["B", "C"]
        { knownRadars := ["A", "B"]
          spokeForwarders := [("A", fA), ("B", fB)]
          discoveryInterval := some 0
          reconnectInterval := none
          isConnected := true
          statusMsg := ""
          hasBinaryStreamManager := true
          nextTimer := 1 }).2 = [REvent.startRelay "C", REvent.stopRelay "A"])
    ∧ ([REvent.startRelay "C", REvent.stopRelay "A"].count (REvent.stopRelay "A") = 1)
    ∧ ([REvent.startRelay "C", REvent.stopRelay "A"].count (REvent.startRelay "C") = 1)
    ∧ ([REvent.startRelay "C", REvent.stopRelay "A"].count (REvent.stopRelay "B") = 0)
    ∧ ([REvent.startRelay "C", REvent.stopRelay "A"].count (REvent.startRelay "B") = 0) :=
  ⟨rfl, rfl, rfl, rfl, rfl, rfl, rfl, rfl⟩

/-- Claim C1 counterexample: when `app.binaryStreamManager` is absent,
`updateRadars` still adds the observed id to `knownRadars` but creates
no forwarder (the source logs "spoke streaming disabled" and skips the
map insert), so after the pass the known set {A} differs from the empty
relay-table key set even though both were empty (and equal) before. -/
theorem updateRadars_no_sink_breaks_invariant :
    ((initState false).knownRadars = (initState false).spokeForwarders.map Prod.fst)
    ∧ ((updateRadars defaultCfg defaultSettings ["A"] (initState false)).1.knownRadars
        = ["A"])
    ∧ ((updateRadars defaultCfg defaultSettings ["A"] (initState false)).1.spokeForwarders
        = [])
    ∧ ¬ ((updateRadars defaultCfg defaultSettings ["A"] (initState false)).1.knownRadars
        = (updateRadars defaultCfg defaultSettings ["A"]
            (initState false)).1.spokeForwarders.map Prod.fst) := by
  refine ⟨rfl, rfl, rfl, ?_⟩
  intro h
  exact List.noConfusion h

/-- Keys of a key-filtered association list are the filtered keys. -/
theorem mapFst_filter_ne (sf : List (String × Forwarder)) (x : String) :
    (sf.filter (fun p => p.1 != x)).map Prod.fst
      = (sf.map Prod.fst).filter (fun y => y != x) := by
  induction sf with
  | nil => rfl
  | cons p rest ih =>
    cases h : (p.1 != x) <;> simp [List.filter_cons, h, ih]

/-- The add loop of `updateRadars` keeps the relay-table key list equal
to the known-radar list when the sink is present. -/
theorem addRadars_keys (cfg : ClientConfig) (settings : Settings) :
    ∀ (ids kr : List String) (sf : List (String × Forwarder)) (evs : List REvent),
      sf.map Prod.fst = kr →
      (addRadars cfg settings true ids kr sf evs).2.1.map Prod.fst
        = (addRadars cfg settings true ids kr sf evs).1 := by
  intro ids
  induction ids with
  | nil =>
    intro kr sf evs h
    simpa [addRadars] using h
  | cons id rest ih =>
    intro kr sf evs h
    cases hc : kr.contains id with
    | true =>
      simp only [addRadars, hc, if_true]
      exact ih kr sf evs h
    | false =>
      have hnot : ¬ id ∈ kr := by simpa using hc
      simp only [addRadars, hc, if_true, if_false, Bool.false_eq_true]
      exact ih (kr ++ [id]) _ _ (by simp [mapSet, h, hnot])

/-- The remove loop of `updateRadars` keeps the relay-table key list
equal to the known-radar list. -/
theorem removeRadars_keys (current : List String) :
    ∀ (snap kr : List String) (sf : List (String × Forwarder)) (evs : List REvent),
      sf.map Prod.fst = kr →
      (removeRadars current snap kr sf evs).2.1.map Prod.fst
        = (removeRadars current snap kr sf evs).1 := by
  intro snap
  induction snap with
  | nil =>
    intro kr sf evs h
    simpa [removeRadars] using h
  | cons id rest ih =>
    intro kr sf evs h
    cases hc : current.contains id with
    | true =>
      simp only [removeRadars, hc, if_true]
      exact ih kr sf evs h
    | false =>
      cases hm : mapGet sf id with
      | some fwd =>
        simp only [removeRadars, hc, hm, Bool.false_eq_true, if_false]
        exact ih _ _ _ (by rw [mapFst_filter_ne, h])
      | none =>
        simp only [removeRadars, hc, hm, Bool.false_eq_true, if_false]
        have hnone : sf.find? (fun p => p.1 == id) = none := by
          have := hm
          unfold mapGet at this
          exact Option.map_eq_none'.mp this
        have hall := List.find?_eq_none.mp hnone
        have hfix : kr.filter (fun x => x != id) = kr := by
          apply List.filter_eq_self.mpr
          intro a ha
          rw [← h] at ha
          obtain ⟨p, hp, hpa⟩ := List.mem_map.mp ha
          have hne := hall p hp
          subst hpa
          simpa using hne
        rw [hfix]
        exact ih _ _ _ h

/-- One full `updateRadars` pass preserves the key-list equality when
the sink is present. -/
theorem updateRadars_preserves_keys (cfg : ClientConfig) (settings : Settings)
    (ids : List String) (s : PluginState)
    (hs : s.hasBinaryStreamManager = true)
    (h : s.spokeForwarders.map Prod.fst = s.knownRadars) :
    (updateRadars cfg settings ids s).1.spokeForwarders.map Prod.fst
      = (updateRadars cfg settings ids s).1.knownRadars := by
  show (updateRadarsCore cfg settings s.hasBinaryStreamManager ids
      s.knownRadars s.spokeForwarders).2.1.map Prod.fst
    = (updateRadarsCore cfg settings s.hasBinaryStreamManager ids
      s.knownRadars s.spokeForwarders).1
  rw [hs]
  unfold updateRadarsCore
  exact removeRadars_keys _ _ _ _ _ (addRadars_keys cfg settings _ _ _ _ h)

/-- Claim C1 (amended): provided the binary-stream sink
(`app.binaryStreamManager`) is available, every sequence of
reconciliation passes starting from the empty initial state keeps
`knownRadars` equal to the key list of `spokeForwarders`; since every
"before" and every "after" of a pass in such a run is the result of
running some prefix of the passes, the invariant holds before and after
each pass.  (Without the sink the invariant fails, see the
counterexample.) -/
theorem reconciliation_known_set_matches_relay_table (cfg : ClientConfig)
    (settings : Settings) (obs : List (List String)) :
    (runPasses cfg settings obs (initState true)).spokeForwarders.map Prod.fst
      = (runPasses cfg settings obs (initState true)).knownRadars := by
  have main : ∀ (l : List (List String)) (s : PluginState),
      s.hasBinaryStreamManager = true →
      s.spokeForwarders.map Prod.fst = s.knownRadars →
      (runPasses cfg settings l s).spokeForwarders.map Prod.fst
        = (runPasses cfg settings l s).knownRadars := by
    intro l
    induction l with
    | nil => intro s _ h; simpa [runPasses] using h
    | cons ids rest ih =>
      intro s hs h
      simp only [runPasses]
      exact ih _ hs (updateRadars_preserves_keys cfg settings ids s hs h)
  exact main obs (initState true) rfl rfl

/-- Claim C3 counterexample: the source's `message` handler checks the
sink reference and the payload type but never `this.closed`, so a binary
message still in flight on the old socket AFTER `stop()` has returned is
still forwarded to the sink — `handleEvent` on the stopped relay emits
the frame, contradicting the claim that no event after `stop()` causes a
frame to be forwarded. -/
theorem stop_then_message_still_forwards :
    (SpokeForwarder.handleEvent true
        (SpokeForwarder.stop (SpokeForwarder.mkNew "r1" "u" true 5000)).1
        (FwdEvent.message (WsData.arrayBuffer [1]))).2
      = [Effect.emitData "radars/r1" [1]]
    ∧ (SpokeForwarder.handleEvent true
        (SpokeForwarder.stop (SpokeForwarder.mkNew "r1" "u" true 5000)).1
        (FwdEvent.message (WsData.arrayBuffer [1]))).2 ≠ [] := by
  exact ⟨rfl, by intro h; exact List.noConfusion h⟩

/-- Stopping a relay leaves it with the terminal flag set and no pending
timer. -/
theorem stop_closed_and_timerless (f : Forwarder) :
    (SpokeForwarder.stop f).1.closed = true
    ∧ (SpokeForwarder.stop f).1.reconnectTimer = none := by
  cases f with
  | mk radarId url hasBSM ri ws rt cl co sid nh =>
    cases rt <;> cases ws <;> exact ⟨rfl, rfl⟩

/-- On a relay whose terminal flag is set and whose timer slot is empty,
any single delivered event preserves both facts, produces no connection
attempt and no reconnect scheduling, and — unless it is a message event —
produces no effect at all. -/
theorem handleEvent_after_stop (c : Bool) (f : Forwarder) (e : FwdEvent)
    (hc : f.closed = true) (ht : f.reconnectTimer = none) :
    (SpokeForwarder.handleEvent c f e).1.closed = true
    ∧ (SpokeForwarder.handleEvent c f e).1.reconnectTimer = none
    ∧ ((SpokeForwarder.handleEvent c f e).2.all
        (fun x => !(x.isConnectAttempt || x.isScheduleTimer)) = true)
    ∧ (e.isMessage = false → (SpokeForwarder.handleEvent c f e).2 = []) := by
  cases e with
  | message d =>
    refine ⟨hc, ht, ?_, by simp [FwdEvent.isMessage]⟩
    cases d <;> cases hb : f.hasBinaryStreamManager <;>
      simp [SpokeForwarder.handleEvent, SpokeForwarder.onMessage, hb,
        Effect.isConnectAttempt, Effect.isScheduleTimer]
  | socketOpen =>
    exact ⟨hc, ht, rfl, fun _ => rfl⟩
  | socketClose =>
    simp [SpokeForwarder.handleEvent, SpokeForwarder.onClose, hc, ht]
  | socketError =>
    exact ⟨hc, ht, rfl, fun _ => rfl⟩
  | reconnectTimerFire =>
    simp [SpokeForwarder.handleEvent, SpokeForwarder.onReconnectTimer, hc, ht]

/-- Delivering any event sequence to a closed, timerless relay yields no
connection attempt and no reconnect scheduling; if the sequence contains
no message events it yields no effects at all. -/
theorem runEvents_after_stop :
    ∀ (evs : List (Bool × FwdEvent)) (f : Forwarder),
      f.closed = true → f.reconnectTimer = none →
      ((SpokeForwarder.runEvents f evs).2.all
          (fun x => !(x.isConnectAttempt || x.isScheduleTimer)) = true)
      ∧ ((evs.all fun p => !(p.2.isMessage)) = true →
          (SpokeForwarder.runEvents f evs).2 = []) := by
  intro evs
  induction evs with
  | nil => intro f hc ht; exact ⟨rfl, fun _ => rfl⟩
  | cons ce rest ih =>
    intro f hc ht
    obtain ⟨c, e⟩ := ce
    obtain ⟨h1, h2, h3, h4⟩ := handleEvent_after_stop c f e hc ht
    obtain ⟨ih1, ih2⟩ := ih (SpokeForwarder.handleEvent c f e).1 h1 h2
    constructor
    · simp only [SpokeForwarder.runEvents, List.all_append, Bool.and_eq_true]
      exact ⟨h3, ih1⟩
    · intro hall
      simp only [List.all_cons, Bool.and_eq_true] at hall
      obtain ⟨he, hrest⟩ := hall
      have hmsg : e.isMessage = false := by simpa using he
      simp only [SpokeForwarder.runEvents]
      rw [h4 hmsg, ih2 hrest]
      rfl

/-- Claim C3 (amended): once `stop()` has returned, no subsequent event
— a close or error still in flight, a spurious timer fire, an open, or
an inbound message — ever causes a connection attempt or a reconnect to
be scheduled, and every event other than a message produces no effect at
all.  (An in-flight binary message IS still forwarded to the sink, since
the message handler does not consult the terminal flag — see the
counterexample; the claim is weakened exactly on that point.) -/
theorem stop_quiesces (f0 : Forwarder) (evs : List (Bool × FwdEvent)) :
    ((SpokeForwarder.runEvents (SpokeForwarder.stop f0).1 evs).2.all
        (fun x => !(x.isConnectAttempt || x.isScheduleTimer)) = true)
    ∧ ((evs.all fun p => !(p.2.isMessage)) = true →
        (SpokeForwarder.runEvents (SpokeForwarder.stop f0).1 evs).2 = []) :=
  runEvents_after_stop evs (SpokeForwarder.stop f0).1
    (stop_closed_and_timerless f0).1 (stop_closed_and_timerless f0).2

/-- Witness for C3 (amended) on a concrete relay with a live socket and
pending timer, delivering an in-flight close, an error and a spurious
timer fire after stop: no effects at all result. -/
theorem stop_quiesces_witness :
    ((SpokeForwarder.runEvents
        (SpokeForwarder.stop
          { (SpokeForwarder.mkNew "r1" "u" true 5000) with
              ws := some 0, reconnectTimer := some 1, nextHandle := 2 }).1
        [(true, FwdEvent.socketClose), (true, FwdEvent.socketError),
         (false, FwdEvent.reconnectTimerFire)]).2.all
        (fun x => !(x.isConnectAttempt || x.isScheduleTimer)) = true)
    ∧ (SpokeForwarder.runEvents
        (SpokeForwarder.stop
          { (SpokeForwarder.mkNew "r1" "u" true 5000) with
              ws := some 0, reconnectTimer := some 1, nextHandle := 2 }).1
        [(true, FwdEvent.socketClose), (true, FwdEvent.socketError),
         (false, FwdEvent.reconnectTimerFire)]).2 = [] := by
  have h := stop_quiesces
    { (SpokeForwarder.mkNew "r1" "u" true 5000) with
        ws := some 0, reconnectTimer := some 1, nextHandle := 2 }
    [(true, FwdEvent.socketClose), (true, FwdEvent.socketError),
     (false, FwdEvent.reconnectTimerFire)]
  exact ⟨h.1, h.2 (by decide)⟩

/-- Exactly one of the two interval handles is live: the discovery
handle is set if and only if the reconnect handle is not. -/
def oneTimer (s : PluginState) : Prop :=
  s.discoveryInterval.isSome = !s.reconnectInterval.isSome

/-- Reconciliation touches only the two collections: both interval
handles, the connected flag, the timer counter and the sink flag are
unchanged by `updateRadars`. -/
theorem updateRadars_frame (cfg : ClientConfig) (settings : Settings)
    (ids : List String) (s : PluginState) :
    (updateRadars cfg settings ids s).1.discoveryInterval = s.discoveryInterval
    ∧ (updateRadars cfg settings ids s).1.reconnectInterval = s.reconnectInterval
    ∧ (updateRadars cfg settings ids s).1.isConnected = s.isConnected
    ∧ (updateRadars cfg settings ids s).1.nextTimer = s.nextTimer
    ∧ (updateRadars cfg settings ids s).1.hasBinaryStreamManager
        = s.hasBinaryStreamManager :=
  ⟨rfl, rfl, rfl, rfl, rfl⟩

/-- The state `connectAndDiscover` leaves behind satisfies the one-timer
invariant whatever the initial outcome, starting from the fresh plugin
state. -/
theorem connectAndDiscover_oneTimer (cfg : ClientConfig) (settings : Settings)
    (hasBSM : Bool) (o : Except ReqError Js) :
    oneTimer (connectAndDiscover cfg settings (initState hasBSM) o).1 := by
  cases o with
  | error e => simp [connectAndDiscover, candCatch, oneTimer, initState]
  | ok radars =>
    cases hk : jsObjectKeys radars with
    | error m =>
      simp [connectAndDiscover, candCatch, oneTimer, initState, hk]
    | ok ids =>
      simp [connectAndDiscover, oneTimer, initState, hk, updateRadars]

/-- Each scheduled callback preserves the one-timer invariant. -/
theorem applyStep_oneTimer (cfg : ClientConfig) (settings : Settings)
    (s : PluginState) (st : PStep) (h : oneTimer s) :
    oneTimer (applyStep cfg settings s st) := by
  cases st with
  | discoveryTick o =>
    cases hd : s.discoveryInterval.isSome with
    | false => simpa [applyStep, hd] using h
    | true =>
      simp only [applyStep, hd, if_true]
      cases o with
      | error e => simp [pollForRadarChanges, pollCatch, oneTimer]
      | ok radars =>
        cases hk : jsObjectKeys radars with
        | error m => simp [pollForRadarChanges, pollCatch, oneTimer, hk]
        | ok ids =>
          simpa [pollForRadarChanges, oneTimer, hk, updateRadars] using h
  | reconnectTick o =>
    cases hr : s.reconnectInterval.isSome with
    | false => simpa [applyStep, hr] using h
    | true =>
      simp only [applyStep, hr, if_true]
      cases o with
      | error e => simpa [reconnectTick] using h
      | ok radars =>
        cases hk : jsObjectKeys radars with
        | error m => simpa [reconnectTick, oneTimer, hk] using h
        | ok ids => simp [reconnectTick, oneTimer, hk, updateRadars]

/-- Any run of scheduled callbacks preserves the one-timer invariant. -/
theorem runSteps_oneTimer (cfg : ClientConfig) (settings : Settings) :
    ∀ (steps : List PStep) (s : PluginState), oneTimer s →
      oneTimer (runSteps cfg settings s steps) := by
  intro steps
  induction steps with
  | nil => intro s h; exact h
  | cons st rest ih =>
    intro s h
    exact ih _ (applyStep_oneTimer cfg settings s st h)

/-- Claim C8: from the moment `connectAndDiscover` has run (the
reconciler's entry point after plugin start) and through any sequence of
discovery-poll and reconnect ticks, exactly one of the two interval
handles is live — the discovery interval exactly when the reconnect
interval is not, never both and never neither. -/
theorem reconciler_exactly_one_timer (cfg : ClientConfig) (settings : Settings)
    (hasBSM : Bool) (o0 : Except ReqError Js) (steps : List PStep) :
    oneTimer (runSteps cfg settings
      (connectAndDiscover cfg settings (initState hasBSM) o0).1 steps) :=
  runSteps_oneTimer cfg settings steps _
    (connectAndDiscover_oneTimer cfg settings hasBSM o0)

/-- Witness for C1 (amended) on a concrete two-pass run. -/
theorem reconciliation_known_set_matches_relay_table_witness :
    (runPasses defaultCfg defaultSettings [["A", "B"], ["B", "C"]]
        (initState true)).spokeForwarders.map Prod.fst
      = (runPasses defaultCfg defaultSettings [["A", "B"], ["B", "C"]]
        (initState true)).knownRadars :=
  reconciliation_known_set_matches_relay_table defaultCfg defaultSettings
    [["A", "B"], ["B", "C"]]

/-- Witness for C2 at concrete relays for A and B. -/
theorem reconcile_scenario_ab_to_bc_witness :
    ((updateRadars defaultCfg defaultSettings ["B", "C"]
        { knownRadars := ["A", "B"]
          spokeForwarders :=
            [("A", SpokeForwarder.mkNew "A" "uA" true 5000),
             ("B", SpokeForwarder.mkNew "B" "uB" true 5000)]
          discoveryInterval := some 0
          reconnectInterval := none
          isConnected := true
          statusMsg := ""
          hasBinaryStreamManager := true
          nextTimer := 1 }).1.spokeForwarders.map Prod.fst = ["B", "C"]) :=
  (reconcile_scenario_ab_to_bc defaultCfg defaultSettings
    (SpokeForwarder.mkNew "A" "uA" true 5000)
    (SpokeForwarder.mkNew "B" "uB" true 5000)).1

/-- Witness for C4 (amended) at a concrete failure. -/
theorem provider_error_normalization_witness :
    providerGetRadarInfo "r" (Except.error ReqError.timeout) (Except.ok Js.null)
      = Js.null
    ∧ providerSetControl (Except.error ReqError.timeout)
      = Js.obj [("success", Js.bool false), ("error", Js.str "Request timeout")] := by
  have h := provider_error_normalization ReqError.timeout "r" "gain" (Except.ok Js.null)
  exact ⟨h.2.1, by simpa using h.2.2.2.2.2.2.2.2.2.2.2.2.2.2.1⟩

/-- Witness for C8 on a concrete failing start followed by a successful
reconnect tick. -/
theorem reconciler_exactly_one_timer_witness :
    oneTimer (runSteps defaultCfg defaultSettings
      (connectAndDiscover defaultCfg defaultSettings (initState true)
        (Except.error ReqError.timeout)).1
      [PStep.reconnectTick (Except.ok (Js.obj []))]) :=
  reconciler_exactly_one_timer defaultCfg defaultSettings true
    (Except.error ReqError.timeout) [PStep.reconnectTick (Except.ok (Js.obj []))]

/-- Witness for C9: the secure and insecure URLs at the spec's concrete
inputs share their remainder after the scheme. -/
theorem getSpokeStreamUrl_spec_witness :
    ∃ rest,
      getSpokeStreamUrl { host := "h", port := 1, secure := false } "x" = "ws" ++ rest
      ∧ getSpokeStreamUrl { host := "h", port := 1, secure := true } "x"
        = "wss" ++ rest :=
  getSpokeStreamUrl_spec.2.2.2.2 "h" 1 "x"
